import Mathlib

/-!
Shallow embedding of the `gmail_agent` triage pipeline
(`src/gmail_agent/agents/email_classifier.py`, `priority_analyzer.py`,
`response_drafter.py`, `config/gmail_config.py`).

The external language-model call (`LLMHandler.generate` together with the
regex extraction performed inside each agent's private `_*_with_llm` helper)
is a black box at the system boundary; it is modelled as an `Except`-valued
parameter: `.error msg` is the `ValueError` raised when the underlying call
fails, `.ok v` is the value extracted from the model response.  Everything
after that boundary (validation against the fixed enumerated sets, the
deterministic urgency score, tone selection, sorting, statistics) is
translated directly from the Python source.
-/

/-- Key set of the `EMAIL_CATEGORIES` table in `config/gmail_config.py`
(insertion order of the Python dict). -/
def EMAIL_CATEGORIES : List String :=
  ["urgent", "work", "marketing", "internal", "spam"]

/-- Key set of the `PRIORITY_LEVELS` table in `config/gmail_config.py`. -/
def PRIORITY_LEVELS : List String :=
  ["high", "medium", "low"]

/-- Result record of `EmailClassifier.classify`. -/
structure Classification where
  category : String
  confidence : ℚ
  reason : String
deriving DecidableEq

/-- Result record of `PriorityAnalyzer.analyze`. -/
structure PriorityAssessment where
  priority : String
  urgency_score : Nat
  factors : List String
deriving DecidableEq

/-- Result record of `ResponseDrafter.draft_response`.  The three nullable
text fields are `Option`s. -/
structure ResponseDraft where
  draft : Option String
  tone : Option String
  suggested_subject : Option String
  should_respond : Bool
  reason : String
deriving DecidableEq

/-- One email record flowing through the pipeline.  The Python code passes
dicts; the three per-stage keys (`classification`, `priority_analysis`,
`response_draft`) are absent before their stage runs, modelled as `Option`
fields that start out `none`. -/
structure EmailRec where
  id : String
  subject : String
  sender : String
  body : String
  classification : Option Classification := none
  priority_analysis : Option PriorityAssessment := none
  response_draft : Option ResponseDraft := none
deriving DecidableEq

/-- ASCII lowercasing of one character, as applied by `str.lower()` to the
characters relevant to the keyword table (the Korean keywords are unaffected
by lowercasing in both Python and this model). -/
def lowerChar (c : Char) : Char :=
  if c.toNat ≥ 65 ∧ c.toNat ≤ 90 then Char.ofNat (c.toNat + 32) else c

/-- Python `s.lower()` as a character list. -/
def lowerStr (s : String) : List Char :=
  s.data.map lowerChar

/-- Whether `needle` is an initial segment of `hay`. -/
def isPrefixList : List Char → List Char → Bool
  | [], _ => true
  | _ :: _, [] => false
  | a :: as, b :: bs => a == b && isPrefixList as bs

/-- Python substring containment `needle in hay`. -/
def containsSub (needle : List Char) : List Char → Bool
  | [] => needle.isEmpty
  | c :: rest => isPrefixList needle (c :: rest) || containsSub needle rest

/-- Python `str.strip()` on the model side: drop whitespace from both ends. -/
def dropLeadingWs : List Char → List Char
  | [] => []
  | c :: r => if c.isWhitespace then dropLeadingWs r else c :: r

/-- Python `str.strip()`. -/
def strip (s : String) : String :=
  String.mk (dropLeadingWs (dropLeadingWs s.data.reverse).reverse)

namespace EmailClassifier

/-- Embedding of `EmailClassifier.classify` (email_classifier.py lines 24-57).  `llm` is
the outcome of `_classify_with_llm`: the extracted, lowercased category (or
`none` when the category pattern did not match) and the extracted reason;
`.error` is the `ValueError` raised when the model call itself fails.  The
Python guard is `if not category or category not in EMAIL_CATEGORIES`. -/
def classify (llm : Except String (Option String × String)) (email : EmailRec) :
    Except String Classification :=
  match llm with
  | .error e => .error e
  | .ok (cat?, reason) =>
    match cat? with
    | none =>
        .error "LLM 분류 실패: 유효하지 않은 카테고리 None. OpenAI API 키가 올바르게 설정되었는지 확인하세요."
    | some c =>
        if c = "" ∨ ¬ (c ∈ EMAIL_CATEGORIES) then
          .error ("LLM 분류 실패: 유효하지 않은 카테고리 " ++ c ++ ". OpenAI API 키가 올바르게 설정되었는지 확인하세요.")
        else
          .ok { category := c, confidence := 0.85, reason := reason }

/-- Python `email.get('classification', {}).get('category', 'work')`. -/
def effectiveCategory (e : EmailRec) : String :=
  match e.classification with
  | some c => c.category
  | none => "work"

/-- Python `stats[category] += 1` guarded by `if category in stats` — increments the
first entry of the association list whose key matches, leaves the list
unchanged when no key matches. -/
def bump (k : String) : List (String × Nat) → List (String × Nat)
  | [] => []
  | (a, n) :: rest => if a = k then (a, n + 1) :: rest else (a, n) :: bump k rest

/-- Embedding of `EmailClassifier.get_category_stats` (lines 137-154): a dict keyed by the
fixed category set, each count starting at 0, incremented per email at its
effective category when that category is one of the fixed keys. -/
def get_category_stats (classified_emails : List EmailRec) : List (String × Nat) :=
  classified_emails.foldl (fun stats e => bump (effectiveCategory e) stats)
    (EMAIL_CATEGORIES.map (fun c => (c, 0)))

end EmailClassifier

/-- The per-record loop body shared by the three `batch_*` methods: run the
stage on one record, stop at the first failure (a raised exception aborts the
whole batch), otherwise collect the enriched records in input order. -/
def batchLoop (f : EmailRec → Except String EmailRec) : List EmailRec → Except String (List EmailRec)
  | [] => .ok []
  | e :: rest =>
    match f e with
    | .error m => .error m
    | .ok r =>
      match batchLoop f rest with
      | .error m => .error m
      | .ok rs => .ok (r :: rs)

namespace EmailClassifier

/-- Embedding of `EmailClassifier.batch_classify` (lines 116-135): classify each record and
append `{**email, 'classification': classification}`.  `llm` gives each
record's model outcome. -/
def batch_classify (llm : EmailRec → Except String (Option String × String))
    (emails : List EmailRec) : Except String (List EmailRec) :=
  batchLoop (fun e => (classify (llm e) e).map (fun c => { e with classification := some c })) emails

end EmailClassifier

namespace PriorityAnalyzer

/-- The `base_scores` dict of `_calculate_urgency_score`. -/
def base_scores : List (String × Nat) :=
  [("high", 8), ("medium", 5), ("low", 2)]

/-- The `urgent_keywords` dict of `_calculate_urgency_score`, in insertion
order. -/
def urgent_keywords : List (String × Nat) :=
  [("긴급", 2), ("즉시", 2), ("urgent", 2), ("asap", 2),
   ("불만", 1), ("환불", 1), ("오류", 1), ("error", 1), ("bug", 1)]

/-- Python `keyword in subject_lower or keyword in body_lower`. -/
def keywordHit (email : EmailRec) (kw : String) : Bool :=
  containsSub kw.data (lowerStr email.subject) || containsSub kw.data (lowerStr email.body)

/-- Embedding of `PriorityAnalyzer._calculate_urgency_score` (priority_analyzer.py lines
121-162): base score from `base_scores.get(priority, 5)`, plus each keyword's
points when it occurs in the lowercased subject or body, capped by
`min(score, 10)`. -/
def _calculate_urgency_score (email : EmailRec) (priority : String) : Nat :=
  let base := (base_scores.lookup priority).getD 5
  let score := urgent_keywords.foldl
    (fun s kp => if keywordHit email kp.1 then s + kp.2 else s) base
  min score 10

/-- Embedding of `PriorityAnalyzer.analyze` (lines 23-56).  `llm` is the outcome of
`_analyze_with_llm`: the extracted, lowercased priority (or `none`) and the
factors list; `.error` is the `ValueError` raised when the model call fails.
The guard is `if not priority or priority not in PRIORITY_LEVELS`. -/
def analyze (llm : Except String (Option String × List String)) (email : EmailRec) :
    Except String PriorityAssessment :=
  match llm with
  | .error e => .error e
  | .ok (pri?, factors) =>
    match pri? with
    | none =>
        .error "LLM 우선순위 분석 실패: 유효하지 않은 우선순위 None. OpenAI API 키가 올바르게 설정되었는지 확인하세요."
    | some p =>
        if p = "" ∨ ¬ (p ∈ PRIORITY_LEVELS) then
          .error ("LLM 우선순위 분석 실패: 유효하지 않은 우선순위 " ++ p ++ ". OpenAI API 키가 올바르게 설정되었는지 확인하세요.")
        else
          .ok { priority := p,
                urgency_score := _calculate_urgency_score email p,
                factors := factors }

/-- Embedding of `PriorityAnalyzer.batch_analyze` (lines 164-185). -/
def batch_analyze (llm : EmailRec → Except String (Option String × List String))
    (emails : List EmailRec) : Except String (List EmailRec) :=
  batchLoop (fun e => (analyze (llm e) e).map (fun pa => { e with priority_analysis := some pa })) emails

/-- Python `x.get('priority_analysis', {}).get('priority', 'medium')`. -/
def effectivePriority (e : EmailRec) : String :=
  match e.priority_analysis with
  | some pa => pa.priority
  | none => "medium"

/-- Python `x.get('priority_analysis', {}).get('urgency_score', 5)`. -/
def effectiveUrgency (e : EmailRec) : Nat :=
  match e.priority_analysis with
  | some pa => pa.urgency_score
  | none => 5

/-- Embedding of `PriorityAnalyzer.get_priority_stats` (lines 187-204). -/
def get_priority_stats (analyzed_emails : List EmailRec) : List (String × Nat) :=
  analyzed_emails.foldl (fun stats e => EmailClassifier.bump (effectivePriority e) stats)
    (PRIORITY_LEVELS.map (fun p => (p, 0)))

/-- The `priority_order` dict of `sort_by_priority`. -/
def priority_order : List (String × Nat) :=
  [("high", 3), ("medium", 2), ("low", 1)]

/-- The sort key of `sort_by_priority`: ordering weight
(`priority_order.get(priority, 2)`) and urgency score. -/
def sortKey (e : EmailRec) : Nat × Nat :=
  ((priority_order.lookup (effectivePriority e)).getD 2, effectiveUrgency e)

/-- Lexicographic `≤` on sort keys, as a boolean. -/
def lexLe (x y : Nat × Nat) : Bool :=
  Nat.blt x.1 y.1 || (x.1 == y.1 && Nat.ble x.2 y.2)

/-- Embedding of `PriorityAnalyzer.sort_by_priority` (lines 206-228): Python's stable
`sorted(..., key=..., reverse=True)`, i.e. a stable sort that puts `a`
before `b` whenever `sortKey b` is lexicographically below `sortKey a`, and
keeps input order on equal keys. -/
def sort_by_priority (analyzed_emails : List EmailRec) : List EmailRec :=
  analyzed_emails.mergeSort (fun a b => lexLe (sortKey b) (sortKey a))

end PriorityAnalyzer

namespace ResponseDrafter

/-- Python `classification.get('category', 'work')` for an optional attached record. -/
def categoryOf (classification : Option Classification) : String :=
  match classification with
  | some c => c.category
  | none => "work"

/-- Python `priority_analysis.get('priority', 'medium')`. -/
def priorityOf (priority_analysis : Option PriorityAssessment) : String :=
  match priority_analysis with
  | some pa => pa.priority
  | none => "medium"

/-- Embedding of `ResponseDrafter._select_tone` (response_drafter.py lines 80-100). -/
def _select_tone (category priority : String) : String :=
  if category = "urgent" ∨ priority = "high" then "formal"
  else if category = "internal" then "friendly"
  else "formal"

/-- Embedding of `ResponseDrafter.draft_response` (lines 21-78).  `llm` is the raw outcome
of `LLMHandler.generate` inside `_generate_draft_with_llm` (which strips the
text on success and re-raises a `ValueError` on failure).  The second
component counts the model calls performed (0 on the spam/marketing
short-circuit, 1 otherwise). -/
def draft_response (llm : Except String String) (email : EmailRec)
    (classification : Option Classification)
    (priority_analysis : Option PriorityAssessment) :
    Except String ResponseDraft × Nat :=
  let category := categoryOf classification
  let priority := priorityOf priority_analysis
  if category = "spam" ∨ category = "marketing" then
    (.ok { draft := none, tone := none, suggested_subject := none,
           should_respond := false,
           reason := "답변이 필요하지 않은 이메일입니다." }, 0)
  else
    let tone := _select_tone category priority
    match llm with
    | .error e => (.error e, 1)
    | .ok s =>
      let draft := strip s
      if draft = "" then
        (.error "LLM 답변 생성 실패. OpenAI API 키가 올바르게 설정되었는지 확인하세요.", 1)
      else
        (.ok { draft := some draft, tone := some tone,
               suggested_subject := some ("Re: " ++ email.subject),
               should_respond := true,
               reason := "답변 초안이 생성되었습니다." }, 1)

/-- Embedding of `ResponseDrafter.batch_draft` (lines 171-194). -/
def batch_draft (llm : EmailRec → Except String String)
    (emails : List EmailRec) : Except String (List EmailRec) :=
  batchLoop (fun e =>
    ((draft_response (llm e) e e.classification e.priority_analysis).1).map
      (fun rd => { e with response_draft := some rd })) emails

/-- Python `email.get('response_draft', {}).get('should_respond', False)`. -/
def shouldRespondFlag (e : EmailRec) : Bool :=
  match e.response_draft with
  | some rd => rd.should_respond
  | none => false

/-- Result record of `ResponseDrafter.get_response_stats`. -/
structure ResponseStats where
  total : Nat
  need_response : Nat
  no_response : Nat
  response_rate : ℚ
deriving DecidableEq

/-- Round-half-to-even on an exact rational, modelling Python's `round`. -/
def roundHalfEven (q : ℚ) : ℤ :=
  if q - ⌊q⌋ < 1/2 then ⌊q⌋
  else if q - ⌊q⌋ > 1/2 then ⌊q⌋ + 1
  else if ⌊q⌋ % 2 = 0 then ⌊q⌋ else ⌊q⌋ + 1

/-- Python `round(x, 1)`: round to one decimal place. -/
def round1 (q : ℚ) : ℚ :=
  (roundHalfEven (q * 10) : ℚ) / 10

/-- Embedding of `ResponseDrafter.get_response_stats` (lines 196-218). -/
def get_response_stats (drafted_emails : List EmailRec) : ResponseStats :=
  let total := drafted_emails.length
  let need_response := drafted_emails.countP shouldRespondFlag
  { total := total,
    need_response := need_response,
    no_response := total - need_response,
    response_rate :=
      if total > 0 then round1 ((need_response : ℚ) / (total : ℚ) * 100) else 0 }

/-- Embedding of `ResponseDrafter.refine_draft` (lines 220-256).  `llm` is the raw outcome
of `LLMHandler.generate`; a failure is logged and the original draft is
returned unchanged, a success is stripped and returned. -/
def refine_draft (llm : Except String String)
    (original_draft user_feedback : String) : String :=
  match llm with
  | .error _ => original_draft
  | .ok s => strip s

end ResponseDrafter

/-- A concrete email record used to instantiate universally quantified
theorems. -/
def demoEmail : EmailRec :=
  { id := "1", subject := "hello", sender := "Ann <a@example.com>", body := "see you" }

/-- Folding an accumulate-if-matched step over a keyword table adds the sum
of the matched point values to the initial score. -/
theorem foldl_ite_add (g : String × Nat → Bool) :
    ∀ (l : List (String × Nat)) (init : Nat),
      l.foldl (fun s kp => if g kp then s + kp.2 else s) init
        = init + (l.map (fun kp => if g kp then kp.2 else 0)).sum := by
  intro l
  induction l with
  | nil => intro init; simp
  | cons kp rest ih =>
    intro init
    cases hg : g kp <;> simp [hg, ih] <;> omega

/-- Python `base_scores.get(priority, 5)` as a case split on the three keys. -/
theorem base_scores_lookup (p : String) :
    ((PriorityAnalyzer.base_scores.lookup p).getD 5)
      = if p = "high" then 8 else if p = "medium" then 5 else if p = "low" then 2 else 5 := by
  by_cases h1 : p = "high"
  · simp [PriorityAnalyzer.base_scores, List.lookup, h1]
  · by_cases h2 : p = "medium"
    · simp [PriorityAnalyzer.base_scores, List.lookup, beq_eq_false_iff_ne.mpr h1, h1, h2]
    · by_cases h3 : p = "low"
      · simp [PriorityAnalyzer.base_scores, List.lookup, beq_eq_false_iff_ne.mpr h1,
          beq_eq_false_iff_ne.mpr h2, h1, h2, h3]
      · simp [PriorityAnalyzer.base_scores, List.lookup, beq_eq_false_iff_ne.mpr h1,
          beq_eq_false_iff_ne.mpr h2, beq_eq_false_iff_ne.mpr h3, h1, h2, h3]

/-- C2: for every email and priority, `_calculate_urgency_score` equals the
minimum of 10 and the sum of the priority-keyed base score (high=8, medium=5,
low=2, otherwise 5) plus, for each entry of the fixed two-language keyword
table, its point value added exactly once when the keyword occurs
(case-insensitively) in the subject or the body — occurrence is a boolean
test, so multiple occurrences of one keyword contribute its value once. -/
theorem urgency_score_formula (e : EmailRec) (p : String) :
    PriorityAnalyzer._calculate_urgency_score e p =
      min 10
        ((if p = "high" then 8 else if p = "medium" then 5 else if p = "low" then 2 else 5)
          + (if PriorityAnalyzer.keywordHit e "긴급" then 2 else 0)
          + (if PriorityAnalyzer.keywordHit e "즉시" then 2 else 0)
          + (if PriorityAnalyzer.keywordHit e "urgent" then 2 else 0)
          + (if PriorityAnalyzer.keywordHit e "asap" then 2 else 0)
          + (if PriorityAnalyzer.keywordHit e "불만" then 1 else 0)
          + (if PriorityAnalyzer.keywordHit e "환불" then 1 else 0)
          + (if PriorityAnalyzer.keywordHit e "오류" then 1 else 0)
          + (if PriorityAnalyzer.keywordHit e "error" then 1 else 0)
          + (if PriorityAnalyzer.keywordHit e "bug" then 1 else 0)) := by
  simp only [PriorityAnalyzer._calculate_urgency_score]
  rw [foldl_ite_add (fun kp => PriorityAnalyzer.keywordHit e kp.1)]
  rw [Nat.min_comm]
  congr 1
  rw [base_scores_lookup]
  simp only [PriorityAnalyzer.urgent_keywords, List.map_cons, List.map_nil,
    List.sum_cons, List.sum_nil]
  ring

/-- C5: the urgency score is a natural number in the closed range [0, 10]
for every email and every priority string. -/
theorem urgency_score_bounds (e : EmailRec) (p : String) :
    0 ≤ PriorityAnalyzer._calculate_urgency_score e p ∧
      PriorityAnalyzer._calculate_urgency_score e p ≤ 10 := by
  refine ⟨Nat.zero_le _, ?_⟩
  simp only [PriorityAnalyzer._calculate_urgency_score]
  exact Nat.min_le_right _ _

/-- C6: `_select_tone` returns formal when the category is urgent or the
priority is high, friendly when the category is internal and the priority is
not high, and formal in every remaining case. -/
theorem select_tone_spec (c p : String) :
    ((c = "urgent" ∨ p = "high") → ResponseDrafter._select_tone c p = "formal") ∧
    ((c = "internal" ∧ p ≠ "high") → ResponseDrafter._select_tone c p = "friendly") ∧
    ((c ≠ "urgent" ∧ c ≠ "internal" ∧ p ≠ "high") →
      ResponseDrafter._select_tone c p = "formal") := by
  refine ⟨?_, ?_, ?_⟩
  · intro h
    rw [ResponseDrafter._select_tone, if_pos h]
  · rintro ⟨h1, h2⟩
    have hno : ¬ (c = "urgent" ∨ p = "high") := by
      rintro (h | h)
      · rw [h1] at h; exact absurd h (by decide)
      · exact h2 h
    rw [ResponseDrafter._select_tone, if_neg hno, if_pos h1]
  · rintro ⟨h1, h2, h3⟩
    have hno : ¬ (c = "urgent" ∨ p = "high") := by
      rintro (h | h)
      · exact h1 h
      · exact h3 h
    rw [ResponseDrafter._select_tone, if_neg hno, if_neg h2]

/-- Witness for C6 at category internal, priority medium. -/
theorem select_tone_spec_witness :
    ResponseDrafter._select_tone "internal" "medium" = "friendly" :=
  (select_tone_spec "internal" "medium").2.1 ⟨rfl, by decide⟩

/-- C1: a classification returned by `classify` always carries a category in
the fixed category set and a priority returned by `analyze` is always in the
fixed priority set; an absent or out-of-set model-derived value makes the
stage return the raised `ValueError` instead of substituting a default. -/
theorem classify_analyze_fixed_domains
    (rc : Except String (Option String × String))
    (rp : Except String (Option String × List String)) (e : EmailRec) :
    (∀ c, EmailClassifier.classify rc e = .ok c → c.category ∈ EMAIL_CATEGORIES) ∧
    (∀ pa, PriorityAnalyzer.analyze rp e = .ok pa → pa.priority ∈ PRIORITY_LEVELS) ∧
    (∀ r, rc = .ok (none, r) → ∃ msg, EmailClassifier.classify rc e = .error msg) ∧
    (∀ cat r, rc = .ok (some cat, r) → cat ∉ EMAIL_CATEGORIES →
       ∃ msg, EmailClassifier.classify rc e = .error msg) ∧
    (∀ fs, rp = .ok (none, fs) → ∃ msg, PriorityAnalyzer.analyze rp e = .error msg) ∧
    (∀ pri fs, rp = .ok (some pri, fs) → pri ∉ PRIORITY_LEVELS →
       ∃ msg, PriorityAnalyzer.analyze rp e = .error msg) := by
  refine ⟨?_, ?_, ?_, ?_, ?_, ?_⟩
  · intro c h
    rcases rc with m | ⟨cat?, r⟩
    · simp [EmailClassifier.classify] at h
    · rcases cat? with _ | s
      · simp [EmailClassifier.classify] at h
      · simp only [EmailClassifier.classify] at h
        split_ifs at h with hcond
        push_neg at hcond
        simp only [Except.ok.injEq] at h
        rw [← h]
        exact hcond.2
  · intro pa h
    rcases rp with m | ⟨pri?, fs⟩
    · simp [PriorityAnalyzer.analyze] at h
    · rcases pri? with _ | s
      · simp [PriorityAnalyzer.analyze] at h
      · simp only [PriorityAnalyzer.analyze] at h
        split_ifs at h with hcond
        push_neg at hcond
        simp only [Except.ok.injEq] at h
        rw [← h]
        exact hcond.2
  · intro r hrc
    subst hrc
    exact ⟨_, rfl⟩
  · intro cat r hrc hmem
    subst hrc
    simp only [EmailClassifier.classify]
    rw [if_pos (Or.inr hmem)]
    exact ⟨_, rfl⟩
  · intro fs hrp
    subst hrp
    exact ⟨_, rfl⟩
  · intro pri fs hrp hmem
    subst hrp
    simp only [PriorityAnalyzer.analyze]
    rw [if_pos (Or.inr hmem)]
    exact ⟨_, rfl⟩

/-- Witness for C1: the out-of-set category banana makes `classify` fail. -/
theorem classify_analyze_fixed_domains_witness :
    ∃ msg, EmailClassifier.classify (.ok (some "banana", "r")) demoEmail = .error msg :=
  (classify_analyze_fixed_domains (.ok (some "banana", "r"))
      (.ok (some "high", [])) demoEmail).2.2.2.1 "banana" "r" rfl (by decide)

/-- C9: `refine_draft` returns the original draft unchanged when the model
call fails and the stripped revision on success, while every other stage
(classify, analyze, non-short-circuited draft_response) propagates a model
failure as an error. -/
theorem refine_draft_fallback (orig fb : String) :
    (∀ m, ResponseDrafter.refine_draft (.error m) orig fb = orig) ∧
    (∀ s, ResponseDrafter.refine_draft (.ok s) orig fb = strip s) ∧
    (∀ m email, EmailClassifier.classify (.error m) email = .error m) ∧
    (∀ m email, PriorityAnalyzer.analyze (.error m) email = .error m) ∧
    (∀ m email cls pa, ResponseDrafter.categoryOf cls ≠ "spam" →
       ResponseDrafter.categoryOf cls ≠ "marketing" →
       (ResponseDrafter.draft_response (.error m) email cls pa).1 = .error m) := by
  refine ⟨fun m => rfl, fun s => rfl, fun m email => rfl, fun m email => rfl, ?_⟩
  intro m email cls pa h1 h2
  simp only [ResponseDrafter.draft_response]
  rw [if_neg (not_or.mpr ⟨h1, h2⟩)]

/-- Witness for C9: a failing model call in the drafting stage is fatal
(while `refine_draft` itself falls back to its input). -/
theorem refine_draft_fallback_witness :
    (ResponseDrafter.draft_response (.error "boom") demoEmail none none).1 = .error "boom" :=
  (refine_draft_fallback "draft" "feedback").2.2.2.2 "boom" demoEmail none none
    (by decide) (by decide)

/-- C4: for a spam or marketing category `draft_response` returns the fixed
no-response record and performs no model call (call count 0); for any other
category a successful result has `should_respond` true, a non-empty draft,
the selected tone, and a suggested subject of `Re: ` plus the original
subject, after exactly one model call. -/
theorem draft_response_spec (llm : Except String String) (e : EmailRec)
    (cls : Option Classification) (pa : Option PriorityAssessment) :
    (ResponseDrafter.categoryOf cls = "spam" ∨ ResponseDrafter.categoryOf cls = "marketing" →
       ResponseDrafter.draft_response llm e cls pa =
         (.ok { draft := none, tone := none, suggested_subject := none,
                should_respond := false,
                reason := "답변이 필요하지 않은 이메일입니다." }, 0)) ∧
    (ResponseDrafter.categoryOf cls ≠ "spam" → ResponseDrafter.categoryOf cls ≠ "marketing" →
       ∀ d n, ResponseDrafter.draft_response llm e cls pa = (.ok d, n) →
         d.should_respond = true ∧
         (∃ t, t ≠ "" ∧ d.draft = some t) ∧
         d.tone = some (ResponseDrafter._select_tone (ResponseDrafter.categoryOf cls)
                          (ResponseDrafter.priorityOf pa)) ∧
         d.suggested_subject = some ("Re: " ++ e.subject) ∧
         n = 1) := by
  constructor
  · intro h
    simp only [ResponseDrafter.draft_response]
    rw [if_pos h]
  · intro h1 h2 d n hdn
    have hno : ¬ (ResponseDrafter.categoryOf cls = "spam" ∨
        ResponseDrafter.categoryOf cls = "marketing") := not_or.mpr ⟨h1, h2⟩
    rcases llm with m | s
    · have heq : ResponseDrafter.draft_response (.error m) e cls pa = (.error m, 1) := by
        simp [ResponseDrafter.draft_response, hno]
      rw [heq] at hdn
      simp at hdn
    · by_cases hs : strip s = ""
      · have heq : ResponseDrafter.draft_response (.ok s) e cls pa =
            (.error "LLM 답변 생성 실패. OpenAI API 키가 올바르게 설정되었는지 확인하세요.", 1) := by
          simp [ResponseDrafter.draft_response, hno, hs]
        rw [heq] at hdn
        simp at hdn
      · have heq : ResponseDrafter.draft_response (.ok s) e cls pa =
            (.ok { draft := some (strip s),
                   tone := some (ResponseDrafter._select_tone (ResponseDrafter.categoryOf cls)
                     (ResponseDrafter.priorityOf pa)),
                   suggested_subject := some ("Re: " ++ e.subject),
                   should_respond := true,
                   reason := "답변 초안이 생성되었습니다." }, 1) := by
          simp [ResponseDrafter.draft_response, hno, hs]
        rw [heq] at hdn
        simp only [Prod.mk.injEq, Except.ok.injEq] at hdn
        obtain ⟨hd, hn⟩ := hdn
        rw [← hd]
        exact ⟨rfl, ⟨strip s, hs, rfl⟩, rfl, rfl, hn.symm⟩

/-- Witness for C4: a spam-classified record short-circuits. -/
theorem draft_response_spec_witness :
    ResponseDrafter.draft_response (.ok "text") demoEmail
        (some { category := "spam", confidence := 0.85, reason := "r" }) none =
      (.ok { draft := none, tone := none, suggested_subject := none,
             should_respond := false,
             reason := "답변이 필요하지 않은 이메일입니다." }, 0) :=
  (draft_response_spec (.ok "text") demoEmail
      (some { category := "spam", confidence := 0.85, reason := "r" }) none).1
    (Or.inl (by decide))

/-- C8: `get_response_stats` returns the list length as total, the count of
records flagged `should_respond` as `need_response`, their difference as
`no_response`, a zero rate on an empty batch, and the percentage rounded to
one decimal place otherwise; with three responders out of four the rate is
exactly 75. -/
theorem get_response_stats_spec (l : List EmailRec) :
    (ResponseDrafter.get_response_stats l).total = l.length ∧
    (ResponseDrafter.get_response_stats l).need_response
        = (l.filter ResponseDrafter.shouldRespondFlag).length ∧
    (ResponseDrafter.get_response_stats l).no_response
        = l.length - (l.filter ResponseDrafter.shouldRespondFlag).length ∧
    (l.length = 0 → (ResponseDrafter.get_response_stats l).response_rate = 0) ∧
    (0 < l.length →
       (ResponseDrafter.get_response_stats l).response_rate
         = ResponseDrafter.round1
             (((l.filter ResponseDrafter.shouldRespondFlag).length : ℚ) / (l.length : ℚ) * 100)) ∧
    (∀ e1 e2 e3 e4 : EmailRec,
       ResponseDrafter.shouldRespondFlag e1 = true →
       ResponseDrafter.shouldRespondFlag e2 = true →
       ResponseDrafter.shouldRespondFlag e3 = true →
       ResponseDrafter.shouldRespondFlag e4 = false →
       (ResponseDrafter.get_response_stats [e1, e2, e3, e4]).response_rate = 75) := by
  refine ⟨rfl, ?_, ?_, ?_, ?_, ?_⟩
  · simp [ResponseDrafter.get_response_stats, List.countP_eq_length_filter]
  · simp [ResponseDrafter.get_response_stats, List.countP_eq_length_filter]
  · intro h0
    simp [ResponseDrafter.get_response_stats, h0]
  · intro hpos
    simp [ResponseDrafter.get_response_stats, List.countP_eq_length_filter, hpos]
  · intro e1 e2 e3 e4 h1 h2 h3 h4
    simp only [ResponseDrafter.get_response_stats, List.countP_cons, List.countP_nil,
      List.length_cons, List.length_nil, h1, h2, h3, h4]
    norm_num [ResponseDrafter.round1, ResponseDrafter.roundHalfEven]

/-- Witness for C8: the empty batch has rate 0 with no division by zero. -/
theorem get_response_stats_spec_witness :
    (ResponseDrafter.get_response_stats []).response_rate = 0 :=
  (get_response_stats_spec []).2.2.2.1 rfl

/-- A successful `batchLoop` run yields one output per input, in input
order, the output at each index being the stage result for the input at the
same index. -/
theorem batchLoop_ok_spec (f : EmailRec → Except String EmailRec) :
    ∀ (l out : List EmailRec), batchLoop f l = .ok out →
      out.length = l.length ∧
      ∀ i, i < l.length → ∃ e r, l[i]? = some e ∧ f e = .ok r ∧ out[i]? = some r := by
  intro l
  induction l with
  | nil =>
    intro out h
    simp only [batchLoop, Except.ok.injEq] at h
    rw [← h]
    exact ⟨rfl, fun i hi => absurd hi (by simp)⟩
  | cons e rest ih =>
    intro out h
    simp only [batchLoop] at h
    rcases hfe : f e with m | r
    · rw [hfe] at h
      simp at h
    · rw [hfe] at h
      rcases hbl : batchLoop f rest with m2 | rs
      · rw [hbl] at h
        simp at h
      · rw [hbl] at h
        simp only [Except.ok.injEq] at h
        obtain ⟨hlen, hpt⟩ := ih rs hbl
        constructor
        · rw [← h]
          simp [hlen]
        · intro i hi
          rw [← h]
          cases i with
          | zero => exact ⟨e, r, by simp, hfe, by simp⟩
          | succ j =>
            have hj : j < rest.length := Nat.lt_of_succ_lt_succ hi
            obtain ⟨e', r', h1, h2, h3⟩ := hpt j hj
            exact ⟨e', r', by simpa using h1, h2, by simpa using h3⟩

/-- An `Except.map` hits `.ok` only through an `.ok` argument. -/
theorem except_map_eq_ok {α β : Type} (g : α → β) (x : Except String α) (b : β) :
    x.map g = .ok b → ∃ a, x = .ok a ∧ b = g a := by
  intro h
  rcases x with m | a
  · simp [Except.map] at h
  · simp [Except.map] at h
    exact ⟨a, rfl, h.symm⟩

/-- C7: each successful batch stage returns exactly one output record per
input record in input order, and the output record is its input record with
only that stage's field newly attached — every other field is carried over
unchanged. -/
theorem batch_stages_shape
    (llmC : EmailRec → Except String (Option String × String))
    (llmP : EmailRec → Except String (Option String × List String))
    (llmD : EmailRec → Except String String)
    (emails out : List EmailRec) :
    (EmailClassifier.batch_classify llmC emails = .ok out →
       out.length = emails.length ∧
       ∀ i, i < emails.length → ∃ e c, emails[i]? = some e ∧
         EmailClassifier.classify (llmC e) e = .ok c ∧
         out[i]? = some { e with classification := some c }) ∧
    (PriorityAnalyzer.batch_analyze llmP emails = .ok out →
       out.length = emails.length ∧
       ∀ i, i < emails.length → ∃ e pa, emails[i]? = some e ∧
         PriorityAnalyzer.analyze (llmP e) e = .ok pa ∧
         out[i]? = some { e with priority_analysis := some pa }) ∧
    (ResponseDrafter.batch_draft llmD emails = .ok out →
       out.length = emails.length ∧
       ∀ i, i < emails.length → ∃ e rd, emails[i]? = some e ∧
         (ResponseDrafter.draft_response (llmD e) e e.classification e.priority_analysis).1
             = .ok rd ∧
         out[i]? = some { e with response_draft := some rd }) := by
  refine ⟨?_, ?_, ?_⟩
  · intro h
    obtain ⟨hlen, hpt⟩ := batchLoop_ok_spec _ emails out h
    refine ⟨hlen, ?_⟩
    intro i hi
    obtain ⟨e, r, h1, h2, h3⟩ := hpt i hi
    obtain ⟨c, hc, hr⟩ := except_map_eq_ok _ _ _ h2
    rw [hr] at h3
    exact ⟨e, c, h1, hc, h3⟩
  · intro h
    obtain ⟨hlen, hpt⟩ := batchLoop_ok_spec _ emails out h
    refine ⟨hlen, ?_⟩
    intro i hi
    obtain ⟨e, r, h1, h2, h3⟩ := hpt i hi
    obtain ⟨pa, hpa, hr⟩ := except_map_eq_ok _ _ _ h2
    rw [hr] at h3
    exact ⟨e, pa, h1, hpa, h3⟩
  · intro h
    obtain ⟨hlen, hpt⟩ := batchLoop_ok_spec _ emails out h
    refine ⟨hlen, ?_⟩
    intro i hi
    obtain ⟨e, r, h1, h2, h3⟩ := hpt i hi
    obtain ⟨rd, hrd, hr⟩ := except_map_eq_ok _ _ _ h2
    rw [hr] at h3
    exact ⟨e, rd, h1, hrd, h3⟩

/-- The classification produced from the model answer work in the C7
witness run. -/
def demoClassification : Classification :=
  { category := "work", confidence := 0.85, reason := "근거" }

/-- Witness for C7: a one-record batch classification succeeds and yields the
input record with the classification attached. -/
theorem batch_stages_shape_witness :
    ∃ e c, ([demoEmail])[0]? = some e ∧
      EmailClassifier.classify (.ok (some "work", "근거")) e = .ok c ∧
      ([{ demoEmail with classification := some demoClassification }])[0]?
        = some { e with classification := some c } :=
  ((batch_stages_shape (fun _ => .ok (some "work", "근거"))
      (fun _ => .ok (some "high", [])) (fun _ => .ok "text") [demoEmail]
      [{ demoEmail with classification := some demoClassification }]).1
    rfl).2 0 (by simp)

/-- The boolean lexicographic comparison in propositional form. -/
theorem lexLe_iff (x y : Nat × Nat) :
    PriorityAnalyzer.lexLe x y = true ↔ x.1 < y.1 ∨ (x.1 = y.1 ∧ x.2 ≤ y.2) := by
  simp [PriorityAnalyzer.lexLe, Nat.blt_eq, Nat.ble_eq]

/-- Transitivity of the record comparison used by `sort_by_priority`. -/
theorem recLe_trans (a b c : EmailRec) :
    PriorityAnalyzer.lexLe (PriorityAnalyzer.sortKey b) (PriorityAnalyzer.sortKey a) = true →
    PriorityAnalyzer.lexLe (PriorityAnalyzer.sortKey c) (PriorityAnalyzer.sortKey b) = true →
    PriorityAnalyzer.lexLe (PriorityAnalyzer.sortKey c) (PriorityAnalyzer.sortKey a) = true := by
  rw [lexLe_iff, lexLe_iff, lexLe_iff]
  omega

/-- Totality of the record comparison used by `sort_by_priority`. -/
theorem recLe_total (a b : EmailRec) :
    (PriorityAnalyzer.lexLe (PriorityAnalyzer.sortKey b) (PriorityAnalyzer.sortKey a) ||
     PriorityAnalyzer.lexLe (PriorityAnalyzer.sortKey a) (PriorityAnalyzer.sortKey b)) = true := by
  rw [Bool.or_eq_true, lexLe_iff, lexLe_iff]
  omega

/-- C3: `sort_by_priority` returns a permutation of its input ordered by
priority weight descending and, within equal weight, by urgency score
descending; records with equal keys keep their relative input order (the
sort is stable); in particular a high-priority record with urgency 5 sorts
before a medium-priority record with urgency 9. -/
theorem sort_by_priority_spec (l : List EmailRec) :
    (PriorityAnalyzer.sort_by_priority l).Perm l ∧
    (PriorityAnalyzer.sort_by_priority l).Pairwise (fun a b =>
      (PriorityAnalyzer.sortKey b).1 < (PriorityAnalyzer.sortKey a).1 ∨
        ((PriorityAnalyzer.sortKey b).1 = (PriorityAnalyzer.sortKey a).1 ∧
         (PriorityAnalyzer.sortKey b).2 ≤ (PriorityAnalyzer.sortKey a).2)) ∧
    (∀ a b : EmailRec, PriorityAnalyzer.sortKey a = PriorityAnalyzer.sortKey b →
       [a, b].Sublist l → [a, b].Sublist (PriorityAnalyzer.sort_by_priority l)) ∧
    (∀ a b : EmailRec,
       PriorityAnalyzer.effectivePriority a = "high" →
       PriorityAnalyzer.effectiveUrgency a = 5 →
       PriorityAnalyzer.effectivePriority b = "medium" →
       PriorityAnalyzer.effectiveUrgency b = 9 →
       PriorityAnalyzer.sort_by_priority [b, a] = [a, b]) := by
  refine ⟨List.mergeSort_perm l _, ?_, ?_, ?_⟩
  · have hs := List.sorted_mergeSort recLe_trans recLe_total l
    exact hs.imp (fun hab => (lexLe_iff _ _).mp hab)
  · intro a b hk hsub
    have hab : PriorityAnalyzer.lexLe (PriorityAnalyzer.sortKey b)
        (PriorityAnalyzer.sortKey a) = true := by
      rw [hk]
      exact (lexLe_iff _ _).mpr (Or.inr ⟨rfl, Nat.le_refl _⟩)
    exact List.pair_sublist_mergeSort recLe_trans recLe_total hab hsub
  · intro a b ha1 ha2 hb1 hb2
    have hka : PriorityAnalyzer.sortKey a = (3, 5) := by
      simp [PriorityAnalyzer.sortKey, ha1, ha2, PriorityAnalyzer.priority_order, List.lookup]
    have hkb : PriorityAnalyzer.sortKey b = (2, 9) := by
      simp [PriorityAnalyzer.sortKey, hb1, hb2, PriorityAnalyzer.priority_order, List.lookup]
    have hperm : (PriorityAnalyzer.sort_by_priority [b, a]).Perm [b, a] :=
      List.mergeSort_perm _ _
    have hsorted := List.sorted_mergeSort recLe_trans recLe_total [b, a]
    have hne : PriorityAnalyzer.sortKey a ≠ PriorityAnalyzer.sortKey b := by
      rw [hka, hkb]
      decide
    rcases hq : PriorityAnalyzer.sort_by_priority [b, a] with _ | ⟨x, _ | ⟨y, _ | ⟨z, t⟩⟩⟩
    · rw [hq] at hperm
      exact absurd hperm.length_eq (by simp)
    · rw [hq] at hperm
      exact absurd hperm.length_eq (by simp)
    · rw [hq] at hperm
      have hsorted2 : ([x, y] : List EmailRec).Pairwise (fun a b =>
          PriorityAnalyzer.lexLe (PriorityAnalyzer.sortKey b)
            (PriorityAnalyzer.sortKey a) = true) := by
        rw [← hq]
        exact hsorted
      have hmem_a : a ∈ [x, y] := hperm.mem_iff.mpr (by simp)
      have hmem_b : b ∈ [x, y] := hperm.mem_iff.mpr (by simp)
      simp only [List.mem_cons, List.mem_singleton, List.not_mem_nil, or_false] at hmem_a hmem_b
      rcases hmem_a with ha | ha
      · rcases hmem_b with hb | hb
        · exact absurd (by rw [ha, hb] : PriorityAnalyzer.sortKey a = PriorityAnalyzer.sortKey b) hne
        · rw [ha, hb]
      · rcases hmem_b with hb | hb
        · have hxy := List.rel_of_pairwise_cons hsorted2 (List.mem_singleton.mpr rfl)
          rw [← ha, ← hb, hka, hkb] at hxy
          exact absurd hxy (by decide)
        · exact absurd (by rw [ha, hb] : PriorityAnalyzer.sortKey a = PriorityAnalyzer.sortKey b) hne
    · rw [hq] at hperm
      have := hperm.length_eq
      simp at this

/-- A high-priority record with urgency 5. -/
def demoHigh5 : EmailRec :=
  { id := "h", subject := "s1", sender := "x", body := "b1",
    priority_analysis := some { priority := "high", urgency_score := 5, factors := [] } }

/-- A medium-priority record with urgency 9. -/
def demoMedium9 : EmailRec :=
  { id := "m", subject := "s2", sender := "y", body := "b2",
    priority_analysis := some { priority := "medium", urgency_score := 9, factors := [] } }

/-- Witness for C3: concrete high-urgency-5 and medium-urgency-9 records. -/
theorem sort_by_priority_spec_witness :
    PriorityAnalyzer.sort_by_priority [demoMedium9, demoHigh5] = [demoHigh5, demoMedium9] :=
  (sort_by_priority_spec []).2.2.2 demoHigh5 demoMedium9
    (by decide) (by decide) (by decide) (by decide)

/-- The function `bump` never changes the key list. -/
theorem bump_keys (k : String) : ∀ l : List (String × Nat),
    (EmailClassifier.bump k l).map Prod.fst = l.map Prod.fst := by
  intro l
  induction l with
  | nil => rfl
  | cons p rest ih =>
    rcases p with ⟨a, n⟩
    by_cases h : a = k <;> simp [EmailClassifier.bump, h, ih]

/-- The update `bump k` increments the entry stored under `k` (when present). -/
theorem lookup_bump_self (k : String) : ∀ l : List (String × Nat),
    (EmailClassifier.bump k l).lookup k = (l.lookup k).map (· + 1) := by
  intro l
  induction l with
  | nil => rfl
  | cons p rest ih =>
    rcases p with ⟨a, n⟩
    by_cases h : a = k
    · simp [EmailClassifier.bump, h, List.lookup]
    · simp [EmailClassifier.bump, h, List.lookup, beq_eq_false_iff_ne.mpr (Ne.symm h), ih]

/-- The update `bump k` leaves every other key's stored count unchanged. -/
theorem lookup_bump_ne (k c : String) (hck : c ≠ k) : ∀ l : List (String × Nat),
    (EmailClassifier.bump k l).lookup c = l.lookup c := by
  intro l
  induction l with
  | nil => rfl
  | cons p rest ih =>
    rcases p with ⟨a, n⟩
    by_cases h : a = k
    · have hca : c ≠ a := by rw [h]; exact hck
      simp [EmailClassifier.bump, h, List.lookup, beq_eq_false_iff_ne.mpr hca,
        beq_eq_false_iff_ne.mpr hck]
    · by_cases hca : c = a <;>
        simp [EmailClassifier.bump, h, List.lookup, hca, ih]

/-- The update `bump k` raises the total count by one exactly when `k` is a stored
key. -/
theorem sum_bump (k : String) : ∀ l : List (String × Nat),
    ((EmailClassifier.bump k l).map Prod.snd).sum
      = (l.map Prod.snd).sum + (if k ∈ l.map Prod.fst then 1 else 0) := by
  intro l
  induction l with
  | nil => simp [EmailClassifier.bump]
  | cons p rest ih =>
    rcases p with ⟨a, n⟩
    by_cases h : a = k
    · subst h
      simp [EmailClassifier.bump, List.mem_cons]
      omega
    · by_cases hm : k ∈ rest.map Prod.fst <;>
        simp [EmailClassifier.bump, h, List.mem_cons, ih, Ne.symm h, hm] <;>
        omega

/-- Folding `bump` keeps the key list of the accumulator. -/
theorem foldl_bump_keys (g : EmailRec → String) :
    ∀ (emails : List EmailRec) (stats : List (String × Nat)),
      (emails.foldl (fun s e => EmailClassifier.bump (g e) s) stats).map Prod.fst
        = stats.map Prod.fst := by
  intro emails
  induction emails with
  | nil => intro stats; rfl
  | cons e rest ih =>
    intro stats
    simp only [List.foldl_cons]
    rw [ih, bump_keys]

/-- After folding `bump` over a record list, the count stored under `c` grew
by the number of records whose effective key is `c`. -/
theorem foldl_bump_lookup (g : EmailRec → String) (c : String) :
    ∀ (emails : List EmailRec) (stats : List (String × Nat)),
      (emails.foldl (fun s e => EmailClassifier.bump (g e) s) stats).lookup c
        = (stats.lookup c).map (· + emails.countP (fun e => g e == c)) := by
  intro emails
  induction emails with
  | nil =>
    intro stats
    cases hx : stats.lookup c <;> simp [hx]
  | cons e rest ih =>
    intro stats
    simp only [List.foldl_cons]
    rw [ih]
    by_cases h : g e = c
    · rw [h, lookup_bump_self]
      cases hx : stats.lookup c <;> simp [hx, List.countP_cons, h] <;> omega
    · rw [lookup_bump_ne (g e) c (fun hc => h hc.symm)]
      simp [List.countP_cons, h]

/-- After folding `bump`, the total of all stored counts grew by the number
of records whose effective key is one of the stored keys. -/
theorem foldl_bump_sum (g : EmailRec → String) :
    ∀ (emails : List EmailRec) (stats : List (String × Nat)),
      ((emails.foldl (fun s e => EmailClassifier.bump (g e) s) stats).map Prod.snd).sum
        = (stats.map Prod.snd).sum
          + emails.countP (fun e => decide (g e ∈ stats.map Prod.fst)) := by
  intro emails
  induction emails with
  | nil => intro stats; simp
  | cons e rest ih =>
    intro stats
    simp only [List.foldl_cons]
    rw [ih, sum_bump]
    simp only [bump_keys]
    rw [List.countP_cons]
    by_cases h : g e ∈ stats.map Prod.fst <;> simp [h] <;> omega

/-- The key list of the all-zero initial table. -/
theorem map_fst_init (keys : List String) :
    (keys.map (fun k => (k, (0 : Nat)))).map Prod.fst = keys := by
  simp [List.map_map, Function.comp_def]

/-- Every fixed key starts at count 0 in the initial table. -/
theorem lookup_init (keys : List String) (c : String) :
    c ∈ keys → (keys.map (fun k => (k, (0 : Nat)))).lookup c = some 0 := by
  induction keys with
  | nil => simp
  | cons a rest ih =>
    intro hc
    by_cases h : c = a
    · simp [List.lookup, h]
    · rcases List.mem_cons.mp hc with h' | h'
      · exact absurd h' h
      · simp [List.lookup, beq_eq_false_iff_ne.mpr h, ih h']

/-- The initial table's counts sum to 0. -/
theorem sum_init (keys : List String) :
    ((keys.map (fun k => (k, (0 : Nat)))).map Prod.snd).sum = 0 := by
  induction keys with
  | nil => rfl
  | cons a rest ih => simpa [Function.comp_def] using ih

/-- C10: the category/priority statistics maps are keyed by exactly the
fixed sets; each key stores the number of records whose effective (attached
or defaulted) category/priority equals it; records with no attached stage
result count under the defaults work/medium; records whose attached value
is outside the fixed set are silently excluded, so the counts sum to the
number of in-set records, which can be less than the input length, and no
error is raised. -/
theorem stats_fixed_key_counts (emails : List EmailRec) :
    ((EmailClassifier.get_category_stats emails).map Prod.fst = EMAIL_CATEGORIES) ∧
    (∀ c, c ∈ EMAIL_CATEGORIES →
       (EmailClassifier.get_category_stats emails).lookup c
         = some (emails.countP (fun e => EmailClassifier.effectiveCategory e == c))) ∧
    (((EmailClassifier.get_category_stats emails).map Prod.snd).sum
       = emails.countP (fun e => decide (EmailClassifier.effectiveCategory e ∈ EMAIL_CATEGORIES))) ∧
    (((EmailClassifier.get_category_stats emails).map Prod.snd).sum ≤ emails.length) ∧
    (∀ e : EmailRec, e.classification = none →
       EmailClassifier.effectiveCategory e = "work") ∧
    ((PriorityAnalyzer.get_priority_stats emails).map Prod.fst = PRIORITY_LEVELS) ∧
    (∀ p, p ∈ PRIORITY_LEVELS →
       (PriorityAnalyzer.get_priority_stats emails).lookup p
         = some (emails.countP (fun e => PriorityAnalyzer.effectivePriority e == p))) ∧
    (((PriorityAnalyzer.get_priority_stats emails).map Prod.snd).sum
       = emails.countP (fun e => decide (PriorityAnalyzer.effectivePriority e ∈ PRIORITY_LEVELS))) ∧
    (((PriorityAnalyzer.get_priority_stats emails).map Prod.snd).sum ≤ emails.length) ∧
    (∀ e : EmailRec, e.priority_analysis = none →
       PriorityAnalyzer.effectivePriority e = "medium") := by
  refine ⟨?_, ?_, ?_, ?_, ?_, ?_, ?_, ?_, ?_, ?_⟩
  · rw [EmailClassifier.get_category_stats, foldl_bump_keys, map_fst_init]
  · intro c hc
    rw [EmailClassifier.get_category_stats, foldl_bump_lookup, lookup_init _ _ hc]
    simp
  · rw [EmailClassifier.get_category_stats, foldl_bump_sum, sum_init]
    simp only [map_fst_init, Nat.zero_add]
  · rw [EmailClassifier.get_category_stats, foldl_bump_sum, sum_init]
    simp only [map_fst_init, Nat.zero_add]
    exact List.countP_le_length _
  · intro e h
    simp [EmailClassifier.effectiveCategory, h]
  · rw [PriorityAnalyzer.get_priority_stats, foldl_bump_keys, map_fst_init]
  · intro p hp
    rw [PriorityAnalyzer.get_priority_stats, foldl_bump_lookup, lookup_init _ _ hp]
    simp
  · rw [PriorityAnalyzer.get_priority_stats, foldl_bump_sum, sum_init]
    simp only [map_fst_init, Nat.zero_add]
  · rw [PriorityAnalyzer.get_priority_stats, foldl_bump_sum, sum_init]
    simp only [map_fst_init, Nat.zero_add]
    exact List.countP_le_length _
  · intro e h
    simp [PriorityAnalyzer.effectivePriority, h]

/-- A record whose attached category lies outside the fixed set. -/
def demoBogus : EmailRec :=
  { id := "b", subject := "s", sender := "x", body := "b",
    classification := some { category := "newsletter", confidence := 0.85, reason := "r" } }

/-- Witness for C10: a record with the out-of-set category newsletter is
excluded from every count, so even the default bucket work stays at 0. -/
theorem stats_fixed_key_counts_witness :
    (EmailClassifier.get_category_stats [demoBogus]).lookup "work" = some 0 :=
  ((stats_fixed_key_counts [demoBogus]).2.1 "work" (by decide)).trans (by decide)
